import Mathlib

/-!
Verification of the IDDCareBot RAG core (idd-care-bot-web).

The development shallowly embeds the chat pipeline of
`idd_care_bot/llm_server.py` together with `idd_care_bot/safety.py`,
`idd_care_bot/prompts.py` and the embedding step of
`idd_care_bot/ingest.py`.

Modelling conventions:
- Python strings are modelled as lists of Unicode code points (`Str`);
  `codes` injects Lean string literals.
- `str.lower()` is modelled on the ASCII range (the crisis phrases and
  smalltalk patterns are all ASCII); `str.strip()` strips the code points
  Python treats as whitespace.
- Vectors are lists of rationals; floating point rounding is not modelled.
- External collaborators (the sentence-transformers model, the two LLM
  provider endpoints) are parameters: the raw encoder is a function
  `Str → List ℚ`, a provider call is a function returning `Except`, where
  `Except.error` models a raised exception (transport failure or non-2xx
  status surfaced by `raise_for_status`).
- The FAISS `IndexFlatIP.search` call is modelled by `ipSearch`: exact
  inner-product ranking in non-increasing score order, and — as the FAISS
  documentation specifies for `k` larger than the number of stored
  vectors — missing result slots padded with label `-1` (the padding
  score models the float sentinel; no claim depends on its value).
- Python list indexing (`meta[int(idx)]`) is modelled by `pyIndex`,
  including Python's negative-index wrap-around; `none` models an
  `IndexError`.
-/

namespace IDDCareBot

/-- A Python string, as its list of Unicode code points. -/
abbrev Str := List Nat

/-- Code points of a Lean string literal. -/
def codes (s : String) : Str := s.toList.map Char.toNat

/-- `str.lower()` on one code point, on the ASCII range: uppercase
`A`–`Z` (65–90) maps to lowercase, all else is fixed. -/
def lowerCode (c : Nat) : Nat := if 65 ≤ c ∧ c ≤ 90 then c + 32 else c

/-- `str.lower()`. -/
def pyLower (s : Str) : Str := s.map lowerCode

/-- The code points `str.strip()` removes: the characters Python's
`str.isspace` accepts. -/
def spaceCodes : List Nat :=
  [9, 10, 11, 12, 13, 28, 29, 30, 31, 32, 133, 160, 5760,
   8192, 8193, 8194, 8195, 8196, 8197, 8198, 8199, 8200, 8201, 8202,
   8232, 8233, 8239, 8287, 12288]

/-- Whitespace test for `str.strip()`. -/
def isSpaceCode (c : Nat) : Bool := spaceCodes.contains c

/-- `str.strip()`: drop leading and trailing whitespace. -/
def pyStrip (s : Str) : Str :=
  ((s.dropWhile isSpaceCode).reverse.dropWhile isSpaceCode).reverse

/-- `s.startswith(pat)` (first argument is the pattern). -/
def startsWithL : Str → Str → Bool
  | [], _ => true
  | _ :: _, [] => false
  | p :: ps, c :: cs => p == c && startsWithL ps cs

/-- Python's `pat in s`: contiguous substring test (the empty pattern
is contained in every string, as in Python). -/
def containsSub : Str → Str → Bool
  | [], pat => pat.isEmpty
  | c :: cs, pat => startsWithL pat (c :: cs) || containsSub cs pat

/-- `safety.RED_FLAGS`: the fixed crisis-indicator phrase list. -/
def RED_FLAGS : List Str :=
  [codes "seizure",
   codes "blue lips",
   codes "unconscious",
   codes "severe chest pain",
   codes "difficulty breathing",
   codes "trouble breathing",
   codes "not responsive",
   codes "stopped breathing",
   codes "choking",
   codes "head injury",
   codes "severe bleeding",
   codes "suicidal",
   codes "ingested poison",
   codes "allergic reaction"]

/-- `safety.CRISIS_MSG`: the fixed crisis-escalation notice. -/
def CRISIS_MSG : Str :=
  codes "This may be an emergency. I’m not a medical professional, but based on what you shared, please contact local emergency services immediately or your child’s clinician."

/-- `safety.NON_DIAGNOSTIC_PREFACE`. -/
def NON_DIAGNOSTIC_PREFACE : Str :=
  codes "I can provide general, caregiver-friendly information about Down syndrome and IDD. I can’t diagnose, prescribe, or replace professional care."

/-- `safety.check_red_flags`: lower-case the text and scan the fixed
phrase list for a substring hit. The Python `for` loop returns on the
first hit; since every hit returns the same pair, this equals the
any-test written here. -/
def check_red_flags (text : Str) : Bool × Str :=
  let t := pyLower text
  if RED_FLAGS.any (fun rf => containsSub t rf) then (true, CRISIS_MSG)
  else (false, [])

/-- A chat citation (`llm_server.Citation`): all metadata fields are
optional, the score is always present. -/
structure Citation where
  title : Option Str
  authors : Option Str
  year : Option Str
  url : Option Str
  source_file : Option Str
  chunk_id : Option Nat
  score : ℚ
deriving DecidableEq

/-- `llm_server.ChatResponse` (also the shape of the smalltalk dicts,
which `chat` splats into a `ChatResponse`). -/
structure ChatResponse where
  answer : Str
  citations : List Citation
deriving DecidableEq

/-- `smalltalk_patterns["greetings"]`. Python stores these in sets;
only membership is used, so a list model is faithful. -/
def greetingsPats : List Str :=
  [codes "hi", codes "hello", codes "hey", codes "good morning", codes "good evening"]

/-- `smalltalk_patterns["gratitude"]`. -/
def gratitudePats : List Str :=
  [codes "thanks", codes "thank you", codes "thx"]

/-- `smalltalk_patterns["farewell"]`. -/
def farewellPats : List Str :=
  [codes "bye", codes "goodbye", codes "see you", codes "take care"]

/-- `smalltalk_patterns["how_are_you"]`. -/
def howAreYouPats : List Str :=
  [codes "how are you", codes "how’s it going", codes "how are u"]

/-- `smalltalk_patterns["capabilities"]`. -/
def capabilitiesPats : List Str :=
  [codes "what can you do", codes "how can you help", codes "who are you",
   codes "what are you", codes "what is your role", codes "help",
   codes "i need help", codes "support", codes "assist me"]

/-- The greeting canned answer. -/
def greetingAnswer : Str :=
  codes "👋 Hi there! I’m glad you reached out. How can I support you today?"

/-- The gratitude canned answer. -/
def gratitudeAnswer : Str :=
  codes "💜 You’re very welcome. Caring for a child with IDD is a big job—you’re doing great."

/-- The farewell canned answer. -/
def farewellAnswer : Str :=
  codes "👋 Take care! Remember, you can come back anytime with questions or just to talk."

/-- The how-are-you canned answer. -/
def howAreYouAnswer : Str :=
  codes "😊 Thanks for asking! I’m here and ready to help with anything about caregiving or resources."

/-- The capabilities canned answer. -/
def capabilitiesAnswer : Str :=
  codes "🤖 I’m **IDDCareBot**, here to support caregivers of children with Down Syndrome and other intellectual or developmental disabilities (IDD). I can:\n- Share caregiver-friendly tips and strategies (not medical advice).\n- Explain information from research in plain language.\n- Suggest resources you can discuss with your child’s providers.\n\nHow can I help you today?"

/-- `llm_server.handle_smalltalk`: normalize the input
(`user_input.lower().strip()`), then try the five categories in the
source's order; greeting and farewell by `startswith`, gratitude and
how-are-you by containment, capabilities by equality or containment.
Returns the canned response with empty citations, or `none`. -/
def handle_smalltalk (user_input : Str) : Option ChatResponse :=
  let text := pyStrip (pyLower user_input)
  if greetingsPats.any (fun g => startsWithL g text) then
    some ⟨greetingAnswer, []⟩
  else if gratitudePats.any (fun g => containsSub text g) then
    some ⟨gratitudeAnswer, []⟩
  else if farewellPats.any (fun g => startsWithL g text) then
    some ⟨farewellAnswer, []⟩
  else if howAreYouPats.any (fun g => containsSub text g) then
    some ⟨howAreYouAnswer, []⟩
  else if capabilitiesPats.any (fun g => text == g || containsSub text g) then
    some ⟨capabilitiesAnswer, []⟩
  else
    none

/-- A record of `storage/meta.json` as written by `ingest.py`: the
`title`, `authors`, `abstract`, `source_file` and `chunk_id` keys are
always present; `year` and `url` may be absent (`none`), as the `chat`
endpoint reads them with `dict.get`. -/
structure MetaRec where
  title : Str
  authors : Str
  abstract : Str
  source_file : Str
  chunk_id : Nat
  year : Option Str
  url : Option Str
deriving DecidableEq

/-- A retrieval hit: the dict `{score, text, meta}` built in `retrieve`. -/
structure Hit where
  score : ℚ
  text : Str
  meta : MetaRec
deriving DecidableEq

/-- Inner product of two vectors. -/
def innerProduct (u v : List ℚ) : ℚ := (List.zipWith (· * ·) u v).sum

/-- The score FAISS leaves in padded result slots of an inner-product
search (models the float sentinel `-FLT_MAX`; no claim depends on the
value, only on the padded slot's label being `-1`). -/
def padScore : ℚ := -340282346638528859811704183484516925440

/-- Insert one `(id, score)` pair into a list that is sorted by
non-increasing score, keeping the sort. -/
def insertByScore (x : Int × ℚ) : List (Int × ℚ) → List (Int × ℚ)
  | [] => [x]
  | y :: ys => if y.2 < x.2 then x :: y :: ys else y :: insertByScore x ys

/-- Sort `(id, score)` pairs by non-increasing score (FAISS leaves the
order of equal scores unspecified; nothing below depends on it). -/
def sortByScoreDesc : List (Int × ℚ) → List (Int × ℚ)
  | [] => []
  | x :: xs => insertByScore x (sortByScoreDesc xs)

/-- Model of `faiss.IndexFlatIP.search` on one query: score every
stored vector by inner product, rank by non-increasing score, keep the
best `k`, and — when `k` exceeds the number of stored vectors — pad
the missing slots with label `-1`. -/
def ipSearch (corpus : List (List ℚ)) (q : List ℚ) (k : Nat) : List (Int × ℚ) :=
  let scored := (List.range corpus.length).map
    (fun i => (Int.ofNat i, innerProduct q (corpus.getD i [])))
  let top := (sortByScoreDesc scored).take k
  top ++ List.replicate (k - top.length) (-1, padScore)

/-- Python list indexing `l[i]`, including the negative-index
wrap-around; `none` models an `IndexError`. -/
def pyIndex {α : Type} (l : List α) (i : Int) : Option α :=
  if 0 ≤ i then l[i.toNat]?
  else if (-i).toNat ≤ l.length then l[l.length - (-i).toNat]? else none

/-- The metadata join loop of `retrieve`: for each `(idx, score)` pair
look up `meta[int(idx)]` and build a `Hit` whose text is the record's
abstract; a failed lookup is the `IndexError` the Python loop would
raise. -/
def joinHits (meta : List MetaRec) : List (Int × ℚ) → Option (List Hit)
  | [] => some []
  | (i, s) :: rest =>
    match pyIndex meta i with
    | none => none
    | some r => (joinHits meta rest).map (fun hs => ⟨s, r.abstract, r⟩ :: hs)

/-- `llm_server.retrieve`: embed the query with the process-wide
encoder (a parameter here), search the index, join against the
metadata sequence. `enc` is the query-time embedder of §4.3. -/
def retrieve (enc : Str → List ℚ) (corpus : List (List ℚ)) (meta : List MetaRec)
    (query : Str) (top_k : Nat) : Option (List Hit) :=
  joinHits meta (ipSearch corpus (enc query) top_k)

/-- `"\n\n".join`-style separator join (empty list gives the empty
string, as in Python). -/
def joinSep (sep : Str) : List Str → Str
  | [] => []
  | [x] => x
  | x :: y :: xs => x ++ sep ++ joinSep sep (y :: xs)

/-- One block of `format_context`: the bracketed provenance header
followed by the hit's text. -/
def hitBlock (h : Hit) : Str :=
  codes "[Title: " ++ h.meta.title ++ codes " | Authors: " ++ h.meta.authors ++
    codes " | Year: " ++ h.meta.year.getD [] ++ codes "]\n" ++ h.text

/-- `llm_server.format_context`. -/
def format_context (snippets : List Hit) : Str :=
  joinSep (codes "\n\n") (snippets.map hitBlock)

/-- A chat message role. -/
inductive Role
  | system
  | user
  | assistant
deriving DecidableEq

/-- A chat message (`{role, content}` dict). -/
structure Msg where
  role : Role
  content : Str
deriving DecidableEq

/-- `prompts.SYSTEM_PROMPT`. -/
def SYSTEM_PROMPT : Str :=
  codes "You are IDDCareBot, a supportive assistant for caregivers of children with Down Syndrome and other intellectual/developmental disabilities (IDD). You provide clear, non-judgmental education, tips, and resources in plain language. You do not give medical diagnoses. You encourage consulting qualified clinicians.\n\nWhen you answer, FIRST check the provided context passages. Prefer direct quotes or paraphrases grounded in the context. If context is insufficient, say so and suggest specific follow-ups (e.g., ask a provider, or request more details).\n\nCitations: After the answer, list sources as bullet points with Title – Authors (Year). Include DOI or PubMed ID links if you are certain they are correct. If no reliable DOI or PubMed link is available, provide the citation without a URL. Do NOT generate or guess URLs."

/-- `prompts.FEWSHOT`: the fixed few-shot exemplar sequence, five
user/assistant pairs. -/
def FEWSHOT : List Msg :=
  [⟨.user, codes "My child has trouble focusing during therapy. Any tips?"⟩,
   ⟨.assistant, codes "Here are some caregiver-friendly ideas you might consider (these are general tips, not medical advice):\n• Keep sessions short and consistent; build routine.\n• Use visual schedules and break tasks into steps.\n• Offer choices and positive reinforcement.\n• Minimize distractions (noise, clutter).\n\nIf focus remains challenging, discuss options with your child’s therapist or pediatrician.\n\n**Sources**:\n• Therapy engagement in IDD – Author et al. (2020)"⟩,
   ⟨.user, codes "Sometimes my child refuses to eat new foods. What can I do?"⟩,
   ⟨.assistant, codes "Feeding challenges are very common. Some general ideas you can try:\n• Introduce new foods slowly, alongside familiar favorites.\n• Make mealtimes relaxed, not stressful.\n• Offer small portions and let your child explore the food first (touch, smell).\n• Use positive reinforcement when your child tries something new.\n\nIf your child is losing weight or seems limited to very few foods, please consult a pediatrician or feeding specialist.\n\n**Sources**:\n• Feeding problems in children with Down Syndrome – Field et al. (2003)\n• Pediatric feeding disorders – Silverman & Tarbell (2009)"⟩,
   ⟨.user, codes "My child gets very frustrated when routines change. How can I help?"⟩,
   ⟨.assistant, codes "Many children with IDD find comfort in routines. To ease transitions:\n• Use visual schedules or calendars to show upcoming changes.\n• Give plenty of warning before a transition.\n• Practice small changes gradually.\n• Offer comfort items (toys, music) during transitions.\n\nIf meltdowns are frequent or severe, talk with your child’s behavioral therapist for tailored strategies.\n\n**Sources**:\n• Transition supports for children with developmental disabilities – Dettmer et al. (2000)"⟩,
   ⟨.user, codes "My child has trouble sleeping through the night. Any suggestions?"⟩,
   ⟨.assistant, codes "Sleep difficulties are common in children with Down Syndrome. Helpful ideas include:\n• Keep a consistent bedtime routine.\n• Limit screens and caffeine before bed.\n• Make the bedroom calm, dark, and quiet.\n• Use a bedtime ritual (story, soft music, dim lights).\n\nIf sleep problems continue, ask your pediatrician to check for medical issues (such as sleep apnea, which is more common in Down Syndrome).\n\n**Sources**:\n• Sleep disorders in Down Syndrome – Breslin et al. (2014)"⟩,
   ⟨.user, codes "How can I encourage my child to communicate more?"⟩,
   ⟨.assistant, codes "Encouraging communication can be done in everyday ways:\n• Model simple words and short phrases.\n• Use gestures, pictures, or sign language alongside speech.\n• Follow your child’s lead—talk about what they are interested in.\n• Celebrate all communication attempts (sounds, gestures, words).\n\nFor more structured support, consider consulting a speech-language pathologist.\n\n**Sources**:\n• Early communication interventions for children with Down Syndrome – Kumin (2003)"⟩]

/-- The content of the final user message of `build_messages`: the
f-string interpolating the live query, the formatted context, and the
non-diagnostic reminder. -/
def userTurn (query context : Str) : Str :=
  codes "Caregiver question: " ++ query ++ codes "\n\n" ++
    codes "Context (use to ground your answer):\n" ++ context ++ codes "\n\n" ++
    codes "Remember: " ++ NON_DIAGNOSTIC_PREFACE

/-- `llm_server.build_messages`: system message, the few-shot
exemplars, then the final user turn. -/
def build_messages (query context : Str) : List Msg :=
  ⟨.system, SYSTEM_PROMPT⟩ :: FEWSHOT ++ [⟨.user, userTurn query context⟩]

/-- The provider configuration read from the environment:
`OPENAI_API_KEY`, `OLLAMA_MODEL` (`none` models an unset variable),
and `TOP_K`. -/
structure ProviderCfg where
  openai_api_key : Option Str
  ollama_model : Option Str
  top_k : Nat

/-- Python truthiness of `os.getenv`'s result: set and non-empty. -/
def pyTruthy : Option Str → Bool
  | none => false
  | some s => !s.isEmpty

/-- The external collaborators of the serving process: the raw
query-time encoder, the persisted index vectors and metadata, and the
two provider endpoints. A provider call returning `Except.error`
models a raised exception (transport failure, or the non-2xx status
surfaced by `raise_for_status`); `Except.ok` carries the completion
content before the final `strip()`. -/
structure Collaborators where
  enc : Str → List ℚ
  corpus : List (List ℚ)
  meta : List MetaRec
  openaiChat : List Msg → Except String Str
  ollamaChat : List Msg → Except String Str

/-- The fixed no-provider warning string of `call_llm`. -/
def NO_PROVIDER_MSG : Str :=
  codes "⚠️ No LLM provider configured. Please set OPENAI_API_KEY or OLLAMA_MODEL in .env."

/-- `llm_server.call_llm`: the OpenAI branch whenever the key is
truthy, else the Ollama branch whenever the model name is truthy, else
the fixed warning. Each provider's completion content is stripped
(`.strip()`, modelled by `pyStrip`); an error from the taken branch
propagates. -/
def call_llm (cfg : ProviderCfg) (world : Collaborators) (messages : List Msg) :
    Except String Str :=
  if pyTruthy cfg.openai_api_key then (world.openaiChat messages).map pyStrip
  else if pyTruthy cfg.ollama_model then (world.ollamaChat messages).map pyStrip
  else Except.ok NO_PROVIDER_MSG

/-- The citation built from one hit in the `chat` endpoint. -/
def mkCitation (h : Hit) : Citation :=
  { title := some h.meta.title
    authors := some h.meta.authors
    year := h.meta.year
    url := h.meta.url
    source_file := some h.meta.source_file
    chunk_id := some h.meta.chunk_id
    score := h.score }

/-- The `chat` endpoint of `llm_server.py`: compute the safety flag,
short-circuit on smalltalk, otherwise retrieve, build the prompt, call
the LLM, prepend the crisis message to the LLM answer when flagged,
and attach the citations built from the hits. `Except.error` models an
exception escaping the endpoint. -/
def chat (cfg : ProviderCfg) (world : Collaborators) (query : Str) :
    Except String ChatResponse :=
  let fc := check_red_flags query
  match handle_smalltalk query with
  | some r => Except.ok r
  | none =>
    match retrieve world.enc world.corpus world.meta query cfg.top_k with
    | none => Except.error "IndexError"
    | some hits =>
      match call_llm cfg world (build_messages query (format_context hits)) with
      | Except.error e => Except.error e
      | Except.ok answer =>
        Except.ok
          { answer := if fc.1 then fc.2 ++ codes "\n\n" ++ answer else answer
            citations := hits.map mkCitation }

/-- Scaling a vector. -/
def vecScale (c : ℚ) (v : List ℚ) : List ℚ := v.map (c * ·)

/-- Squared Euclidean norm. -/
def sqNorm (v : List ℚ) : ℚ := (v.map (fun x => x * x)).sum

/-- Model of `SentenceTransformer.encode` on one text: the raw pooled
model output `raw text`, divided by its Euclidean norm when
`normalize_embeddings` is set and returned unchanged otherwise (the
flag defaults to false in the library). Since the Euclidean norm is
irrational in general, the norm computation `normOf` is a parameter;
a faithful instantiation satisfies `normOf v * normOf v = sqNorm v`. -/
def stEncode (raw : Str → List ℚ) (normOf : List ℚ → ℚ)
    (normalize_embeddings : Bool) (text : Str) : List ℚ :=
  if normalize_embeddings then vecScale (normOf (raw text))⁻¹ (raw text)
  else raw text

/-- `llm_server.embed`: `get_embedder().encode([text])[0]` — the
library default, no normalization flag passed. -/
def embed (raw : Str → List ℚ) (normOf : List ℚ → ℚ) (text : Str) : List ℚ :=
  stEncode raw normOf false text

/-- The ingestion-side embedding of one chunk (`ingest.py`):
`embedder.encode(..., normalize_embeddings=True)`. -/
def ingestEmbed (raw : Str → List ℚ) (normOf : List ℚ → ℚ) (text : Str) : List ℚ :=
  stEncode raw normOf true text

/-- How a smalltalk category matches (spec wording, §4.2): greeting and
farewell require the text to start with a pattern; gratitude and
how-are-you match anywhere; capabilities matches anywhere or on exact
equality. -/
inductive MatchMode
  | startMode
  | anywhereMode
  | anywhereOrEqualMode
deriving DecidableEq

/-- Whether `pat` matches `text` under a matching mode. -/
def modeMatches : MatchMode → Str → Str → Bool
  | .startMode, text, pat => startsWithL pat text
  | .anywhereMode, text, pat => containsSub text pat
  | .anywhereOrEqualMode, text, pat => text == pat || containsSub text pat

/-- One smalltalk category of the spec: a matching mode, its pattern
set, and its canned response. -/
structure SmalltalkCategory where
  mode : MatchMode
  pats : List Str
  response : ChatResponse

/-- Modelled from the spec (§4.2): the fixed priority order greeting,
gratitude, farewell, how-are-you, capabilities, each with its matching
mode and canned response (empty citations). -/
def smalltalkPriority : List SmalltalkCategory :=
  [⟨.startMode, greetingsPats, ⟨greetingAnswer, []⟩⟩,
   ⟨.anywhereMode, gratitudePats, ⟨gratitudeAnswer, []⟩⟩,
   ⟨.startMode, farewellPats, ⟨farewellAnswer, []⟩⟩,
   ⟨.anywhereMode, howAreYouPats, ⟨howAreYouAnswer, []⟩⟩,
   ⟨.anywhereOrEqualMode, capabilitiesPats, ⟨capabilitiesAnswer, []⟩⟩]

/-- Modelled from the spec (§4.2): classify the lower-cased, trimmed
text against the categories in priority order; the first category one
of whose patterns matches wins, and its canned response is returned;
no match yields the no-match signal. -/
def smalltalkSpec (s : Str) : Option ChatResponse :=
  let text := pyStrip (pyLower s)
  (smalltalkPriority.find? (fun cat => cat.pats.any (fun pat => modeMatches cat.mode text pat))).map
    (fun cat => cat.response)

/-- A one-vector encoder, for concrete instances. -/
def encOne : Str → List ℚ := fun _ => [1]

/-- A concrete metadata record, for concrete instances. -/
def metaOne : MetaRec :=
  { title := codes "t", authors := codes "a", abstract := codes "abs",
    source_file := codes "f.csv", chunk_id := 0, year := none, url := none }

/-- A concrete serving environment: a one-chunk corpus and providers
that never fail. -/
def worldOne : Collaborators :=
  { enc := encOne, corpus := [[1]], meta := [metaOne],
    openaiChat := fun _ => Except.ok (codes "llm answer"),
    ollamaChat := fun _ => Except.ok (codes "llm answer") }

/-- A concrete serving environment whose OpenAI endpoint fails with a
non-2xx status (`raise_for_status` raising `HTTPStatusError`). -/
def worldHTTPError : Collaborators :=
  { enc := encOne, corpus := [[1]], meta := [metaOne],
    openaiChat := fun _ => Except.error "HTTPStatusError",
    ollamaChat := fun _ => Except.ok (codes "llm answer") }

/-- The configuration with no provider set. -/
def cfgNone : ProviderCfg :=
  { openai_api_key := none, ollama_model := none, top_k := 5 }

/-- A configuration with both providers set (the OpenAI key truthy),
and `top_k = 1`. -/
def cfgBoth : ProviderCfg :=
  { openai_api_key := some (codes "sk-test"), ollama_model := some (codes "llama3"),
    top_k := 1 }

/-- The single hit `retrieve` produces over `worldOne`'s corpus with
`top_k = 1`. -/
def hitOne : Hit := ⟨1, codes "abs", metaOne⟩

/-- A raw encoder whose pooled output is the non-unit vector `[3, 4]`,
for the C3 instance. -/
def rawThreeFour : Str → List ℚ := fun _ => [3, 4]

/-- The Euclidean-norm computation matching `rawThreeFour`'s output:
`‖[3, 4]‖ = 5`. -/
def normOfThreeFour : List ℚ → ℚ := fun _ => 5

theorem startsWithL_self_append (p t : Str) : startsWithL p (p ++ t) = true := by
  induction p with
  | nil => rfl
  | cons c cs ih => simp [startsWithL, ih]

theorem containsSub_of_startsWithL {s pat : Str} (h : startsWithL pat s = true) :
    containsSub s pat = true := by
  cases s with
  | nil =>
    cases pat with
    | nil => rfl
    | cons p ps => simp [startsWithL] at h
  | cons c cs => simp [containsSub, h]

theorem containsSub_append_left (a : Str) {b pat : Str} (h : containsSub b pat = true) :
    containsSub (a ++ b) pat = true := by
  induction a with
  | nil => simpa using h
  | cons c cs ih => simp [containsSub, ih]

theorem containsSub_sandwich (a c pat : Str) : containsSub (a ++ (pat ++ c)) pat = true :=
  containsSub_append_left a (containsSub_of_startsWithL (startsWithL_self_append pat c))

theorem check_red_flags_flagged_iff (text : Str) :
    check_red_flags text = (true, CRISIS_MSG) ↔
      ∃ rf ∈ RED_FLAGS, containsSub (pyLower text) rf = true := by
  by_cases h : RED_FLAGS.any (fun rf => containsSub (pyLower text) rf) = true
  · simp only [check_red_flags, if_pos h]
    exact ⟨fun _ => List.any_eq_true.mp h, fun _ => by simp⟩
  · simp only [check_red_flags, if_neg h]
    constructor
    · intro hcontra
      simp at hcontra
    · intro hex
      exact absurd (List.any_eq_true.mpr hex) h

theorem check_red_flags_clean_iff (text : Str) :
    check_red_flags text = (false, []) ↔
      ¬ ∃ rf ∈ RED_FLAGS, containsSub (pyLower text) rf = true := by
  by_cases h : RED_FLAGS.any (fun rf => containsSub (pyLower text) rf) = true
  · simp only [check_red_flags, if_pos h]
    constructor
    · intro hcontra
      simp at hcontra
    · intro hn
      exact absurd (List.any_eq_true.mp h) hn
  · simp only [check_red_flags, if_neg h]
    constructor
    · intro _ hex
      exact absurd (List.any_eq_true.mpr hex) h
    · intro _
      simp

/-- C4: `check_red_flags` returns `(true, CRISIS_MSG)` — with the fixed
non-empty crisis message — exactly when the lower-cased text contains
some member of the fixed crisis-phrase list as a substring, and
`(false, "")` otherwise; in particular `"He is NOT RESPONSIVE right
now"` is flagged and `"I feel great today"` is not. -/
theorem C4_check_red_flags_contract :
    (∀ text : Str,
        (check_red_flags text = (true, CRISIS_MSG) ↔
          ∃ rf ∈ RED_FLAGS, containsSub (pyLower text) rf = true) ∧
        (check_red_flags text = (false, []) ↔
          ¬ ∃ rf ∈ RED_FLAGS, containsSub (pyLower text) rf = true)) ∧
      CRISIS_MSG ≠ [] ∧
      check_red_flags (codes "He is NOT RESPONSIVE right now") = (true, CRISIS_MSG) ∧
      check_red_flags (codes "I feel great today") = (false, []) :=
  ⟨fun text => ⟨check_red_flags_flagged_iff text, check_red_flags_clean_iff text⟩,
   by decide, by decide, by decide⟩

/-- Witness for C4: the contract instantiated at the flagged example. -/
theorem C4_witness :
    check_red_flags (codes "He is NOT RESPONSIVE right now") = (true, CRISIS_MSG) ↔
      ∃ rf ∈ RED_FLAGS, containsSub (pyLower (codes "He is NOT RESPONSIVE right now")) rf = true :=
  (C4_check_red_flags_contract.1 (codes "He is NOT RESPONSIVE right now")).1

theorem lowerCode_idem (c : Nat) : lowerCode (lowerCode c) = lowerCode c := by
  by_cases h : 65 ≤ c ∧ c ≤ 90
  · have h1 : lowerCode c = c + 32 := if_pos h
    have h2 : lowerCode (c + 32) = c + 32 := if_neg (by omega)
    rw [h1, h2]
  · have h1 : lowerCode c = c := if_neg h
    rw [h1, h1]

theorem isSpaceCode_of_letter {c : Nat} (h1 : 65 ≤ c) (h2 : c ≤ 122) :
    isSpaceCode c = false := by
  have : c ∉ spaceCodes := by
    intro hmem
    simp only [spaceCodes, List.mem_cons, List.not_mem_nil, or_false] at hmem
    omega
  simpa [isSpaceCode, List.contains] using this

theorem isSpaceCode_lowerCode (c : Nat) : isSpaceCode (lowerCode c) = isSpaceCode c := by
  by_cases h : 65 ≤ c ∧ c ≤ 90
  · have h1 : lowerCode c = c + 32 := if_pos h
    rw [h1, isSpaceCode_of_letter (by omega) (by omega),
      isSpaceCode_of_letter (by omega) (by omega)]
  · have h1 : lowerCode c = c := if_neg h
    rw [h1]

theorem pyLower_idem (s : Str) : pyLower (pyLower s) = pyLower s := by
  unfold pyLower
  rw [List.map_map]
  exact List.map_congr_left fun c _ => lowerCode_idem c

theorem pyLower_pyStrip (s : Str) : pyLower (pyStrip s) = pyStrip (pyLower s) := by
  have hfun : (isSpaceCode ∘ lowerCode) = isSpaceCode := funext isSpaceCode_lowerCode
  unfold pyLower pyStrip
  rw [List.dropWhile_map, hfun, ← List.map_reverse, List.dropWhile_map, hfun,
    ← List.map_reverse]

theorem dropWhile_dropWhile (p : Nat → Bool) (l : Str) :
    List.dropWhile p (List.dropWhile p l) = List.dropWhile p l := by
  induction l with
  | nil => rfl
  | cons c cs ih =>
    by_cases h : p c = true
    · rw [List.dropWhile_cons, if_pos h, ih]
    · rw [List.dropWhile_cons, if_neg h, List.dropWhile_cons, if_neg h]

theorem length_dropWhile_le (p : Nat → Bool) (l : Str) :
    (List.dropWhile p l).length ≤ l.length := by
  induction l with
  | nil => exact Nat.le_refl _
  | cons c cs ih =>
    by_cases h : p c = true
    · rw [List.dropWhile_cons, if_pos h]
      exact Nat.le_succ_of_le ih
    · rw [List.dropWhile_cons, if_neg h]

theorem dropWhile_eq_self_of_split {p : Nat → Bool} {a b u : Str}
    (ha : List.dropWhile p a = a) (hab : a = b ++ u) :
    List.dropWhile p b = b := by
  cases b with
  | nil => rfl
  | cons c cs =>
    have hpc : p c = false := by
      by_cases h : p c = true
      · rw [hab, List.cons_append, List.dropWhile_cons, if_pos h] at ha
        have hlen := congrArg List.length ha
        have := length_dropWhile_le p (cs ++ u)
        simp only [List.length_cons] at hlen
        omega
      · exact Bool.eq_false_iff.mpr h
    rw [List.dropWhile_cons, if_neg (by simp [hpc])]

theorem pyStrip_idem (s : Str) : pyStrip (pyStrip s) = pyStrip s := by
  have ha : List.dropWhile isSpaceCode (List.dropWhile isSpaceCode s) =
      List.dropWhile isSpaceCode s := dropWhile_dropWhile _ _
  obtain ⟨t, ht⟩ := (List.dropWhile_suffix (l := (List.dropWhile isSpaceCode s).reverse)
    isSpaceCode)
  have hab : List.dropWhile isSpaceCode s = pyStrip s ++ t.reverse := by
    have := congrArg List.reverse ht
    simpa [pyStrip, List.reverse_append] using this.symm
  have hb : List.dropWhile isSpaceCode (pyStrip s) = pyStrip s :=
    dropWhile_eq_self_of_split ha hab
  have hbrev : List.dropWhile isSpaceCode (pyStrip s).reverse = (pyStrip s).reverse := by
    show List.dropWhile isSpaceCode
        ((((s.dropWhile isSpaceCode).reverse.dropWhile isSpaceCode).reverse).reverse) = _
    rw [List.reverse_reverse, dropWhile_dropWhile, ← List.reverse_reverse
      (List.dropWhile isSpaceCode (s.dropWhile isSpaceCode).reverse)]
    rfl
  show ((List.dropWhile isSpaceCode (pyStrip s)).reverse.dropWhile isSpaceCode).reverse =
    pyStrip s
  rw [hb, hbrev, List.reverse_reverse]

theorem normalizeText_idem (s : Str) :
    pyStrip (pyLower (pyStrip (pyLower s))) = pyStrip (pyLower s) := by
  rw [pyLower_pyStrip, pyLower_idem, pyStrip_idem]

/-- C10: `handle_smalltalk` is invariant under pre-normalizing its
input — applying it to the lower-cased, whitespace-trimmed form of `s`
gives the same classification and canned answer as applying it to `s`,
because the matcher normalizes internally. -/
theorem C10_handle_smalltalk_normalization (s : Str) :
    handle_smalltalk (pyStrip (pyLower s)) = handle_smalltalk s := by
  unfold handle_smalltalk
  rw [normalizeText_idem]

/-- Witness for C10: the normalization invariance at a concrete mixed
case, padded input. -/
theorem C10_witness :
    handle_smalltalk (pyStrip (pyLower (codes "  Hi There!  "))) =
      handle_smalltalk (codes "  Hi There!  ") :=
  C10_handle_smalltalk_normalization (codes "  Hi There!  ")

theorem handle_smalltalk_eq_spec (s : Str) : handle_smalltalk s = smalltalkSpec s := by
  unfold handle_smalltalk smalltalkSpec smalltalkPriority
  simp only [List.find?_cons, modeMatches]
  by_cases h1 : greetingsPats.any (fun g => startsWithL g (pyStrip (pyLower s))) = true
  · simp [h1]
  · simp only [Bool.not_eq_true] at h1
    by_cases h2 : gratitudePats.any (fun g => containsSub (pyStrip (pyLower s)) g) = true
    · simp [h1, h2]
    · simp only [Bool.not_eq_true] at h2
      by_cases h3 : farewellPats.any (fun g => startsWithL g (pyStrip (pyLower s))) = true
      · simp [h1, h2, h3]
      · simp only [Bool.not_eq_true] at h3
        by_cases h4 :
            howAreYouPats.any (fun g => containsSub (pyStrip (pyLower s)) g) = true
        · simp [h1, h2, h3, h4]
        · simp only [Bool.not_eq_true] at h4
          by_cases h5 : capabilitiesPats.any
              (fun g => pyStrip (pyLower s) == g || containsSub (pyStrip (pyLower s)) g) = true
          · simp [h1, h2, h3, h4, h5]
          · simp only [Bool.not_eq_true] at h5
            simp [h1, h2, h3, h4, h5]

/-- C5: the Smalltalk Matcher agrees, on every input, with the
spec-side classifier `smalltalkSpec` that tries the categories in the
fixed priority order greeting, gratitude, farewell, how-are-you,
capabilities — greeting and farewell matching only when the
lower-cased trimmed text starts with a pattern, gratitude, how-are-you
and capabilities matching anywhere in the text (capabilities also on
exact equality) — returning the first matching category's canned
answer with empty citations, or the no-match signal; in particular
`"hi there, how are you?"` is classified as a greeting. -/
theorem C5_smalltalk_priority_order :
    (∀ s : Str, handle_smalltalk s = smalltalkSpec s) ∧
      handle_smalltalk (codes "hi there, how are you?") = some ⟨greetingAnswer, []⟩ ∧
      greetingAnswer ≠ howAreYouAnswer :=
  ⟨handle_smalltalk_eq_spec, by decide, by decide⟩

/-- Witness for C5: the matcher/spec agreement at the concrete
greeting-versus-how-are-you example. -/
theorem C5_witness :
    handle_smalltalk (codes "hi there, how are you?") =
      smalltalkSpec (codes "hi there, how are you?") :=
  C5_smalltalk_priority_order.1 (codes "hi there, how are you?")

theorem length_insertByScore (x : Int × ℚ) (l : List (Int × ℚ)) :
    (insertByScore x l).length = l.length + 1 := by
  induction l with
  | nil => rfl
  | cons y ys ih =>
    by_cases h : y.2 < x.2
    · simp [insertByScore, if_pos h]
    · simp [insertByScore, if_neg h, ih]

theorem length_sortByScoreDesc (l : List (Int × ℚ)) :
    (sortByScoreDesc l).length = l.length := by
  induction l with
  | nil => rfl
  | cons x xs ih => simp [sortByScoreDesc, length_insertByScore, ih]

theorem mem_insertByScore {z x : Int × ℚ} {l : List (Int × ℚ)}
    (h : z ∈ insertByScore x l) : z = x ∨ z ∈ l := by
  induction l with
  | nil => simpa [insertByScore] using h
  | cons y ys ih =>
    by_cases hc : y.2 < x.2
    · rw [insertByScore, if_pos hc] at h
      simpa using h
    · rw [insertByScore, if_neg hc] at h
      rcases List.mem_cons.mp h with h' | h'
      · exact Or.inr (h' ▸ List.mem_cons_self y ys)
      · rcases ih h' with h'' | h''
        · exact Or.inl h''
        · exact Or.inr (List.mem_cons_of_mem y h'')

theorem mem_sortByScoreDesc {z : Int × ℚ} {l : List (Int × ℚ)}
    (h : z ∈ sortByScoreDesc l) : z ∈ l := by
  induction l with
  | nil => simpa [sortByScoreDesc] using h
  | cons x xs ih =>
    rw [sortByScoreDesc] at h
    rcases mem_insertByScore h with h' | h'
    · exact h' ▸ List.mem_cons_self x xs
    · exact List.mem_cons_of_mem x (ih h')

theorem length_ipSearch (corpus : List (List ℚ)) (q : List ℚ) (k : Nat) :
    (ipSearch corpus q k).length = k := by
  unfold ipSearch
  have hle : ((sortByScoreDesc ((List.range corpus.length).map
      (fun i => (Int.ofNat i, innerProduct q (corpus.getD i []))))).take k).length ≤ k :=
    le_trans (List.length_take_le _ _) (le_refl _)
  simp only [List.length_append, List.length_replicate]
  omega

theorem mem_ipSearch {corpus : List (List ℚ)} {q : List ℚ} {k : Nat} {p : Int × ℚ}
    (h : p ∈ ipSearch corpus q k) :
    p.1 = -1 ∨ (0 ≤ p.1 ∧ p.1.toNat < corpus.length) := by
  unfold ipSearch at h
  rcases List.mem_append.mp h with h' | h'
  · have hmem := mem_sortByScoreDesc (List.mem_of_mem_take h')
    rcases List.mem_map.mp hmem with ⟨i, hi, hpi⟩
    right
    rw [← hpi]
    exact ⟨Int.ofNat_nonneg i, by simpa using List.mem_range.mp hi⟩
  · left
    have := List.eq_of_mem_replicate h'
    rw [this]

theorem pyIndex_neg_one {α : Type} {l : List α} (h : l ≠ []) :
    ∃ r, pyIndex l (-1) = some r := by
  have hlen : 0 < l.length := List.length_pos.mpr h
  unfold pyIndex
  rw [if_neg (by decide), if_pos (by simpa using hlen)]
  have : l.length - 1 < l.length := by omega
  exact ⟨l.get ⟨l.length - 1, this⟩, by simp [List.getElem?_eq_getElem this]⟩

theorem pyIndex_nonneg {α : Type} {l : List α} {i : Int} (h0 : 0 ≤ i)
    (hlt : i.toNat < l.length) : ∃ r, pyIndex l i = some r := by
  unfold pyIndex
  rw [if_pos h0]
  exact ⟨l.get ⟨i.toNat, hlt⟩, by simp [List.getElem?_eq_getElem hlt]⟩

theorem joinHits_ok {meta : List MetaRec} {l : List (Int × ℚ)}
    (h : ∀ p ∈ l, ∃ r, pyIndex meta p.1 = some r) :
    ∃ hs, joinHits meta l = some hs ∧ hs.length = l.length := by
  induction l with
  | nil => exact ⟨[], rfl, rfl⟩
  | cons p ps ih =>
    obtain ⟨r, hr⟩ := h p (List.mem_cons_self p ps)
    obtain ⟨hs, hhs, hlen⟩ := ih (fun q hq => h q (List.mem_cons_of_mem p hq))
    refine ⟨⟨p.2, r.abstract, r⟩ :: hs, ?_, by simp [hlen]⟩
    show joinHits meta (p :: ps) = _
    rw [show (p : Int × ℚ) = (p.1, p.2) from rfl, joinHits, hr, hhs]
    rfl

theorem retrieve_ok (enc : Str → List ℚ) {corpus : List (List ℚ)} {meta : List MetaRec}
    (query : Str) (k : Nat) (hne : corpus ≠ []) (hlen : meta.length = corpus.length) :
    ∃ hits, retrieve enc corpus meta query k = some hits ∧ hits.length = k := by
  have hmeta_ne : meta ≠ [] := by
    intro hc
    rw [hc] at hlen
    exact hne (List.length_eq_zero.mp hlen.symm)
  have hidx : ∀ p ∈ ipSearch corpus (enc query) k, ∃ r, pyIndex meta p.1 = some r := by
    intro p hp
    rcases mem_ipSearch hp with h | ⟨h0, hlt⟩
    · rw [h]
      exact pyIndex_neg_one hmeta_ne
    · exact pyIndex_nonneg h0 (by omega)
  obtain ⟨hs, hhs, hlens⟩ := joinHits_ok hidx
  exact ⟨hs, hhs, by rw [hlens, length_ipSearch]⟩

/-- C2 counterexample: over a one-chunk corpus, `retrieve` with
`top_k = 2` returns two hits, not the one hit the corpus holds — FAISS
pads the missing slot with label `-1`, and Python's negative indexing
silently resolves `meta[-1]` to the last record instead of failing. -/
theorem C2_counterexample :
    (retrieve encOne [[1]] [metaOne] [] 2).map List.length = some 2 ∧
      ([[1]] : List (List ℚ)).length = 1 := by
  constructor
  · decide
  · rfl

/-- C2 (amended): for every query and every `top_k` at least the corpus
size (corpus non-empty, metadata in lockstep), `retrieve` returns
exactly `top_k` hits without error — the first `corpus size` are the
real hits and the rest are padding entries that alias the last
metadata record via Python negative indexing. -/
theorem C2_retrieve_overlong_topk (enc : Str → List ℚ) {corpus : List (List ℚ)}
    {meta : List MetaRec} (query : Str) (k : Nat) (hne : corpus ≠ [])
    (hlen : meta.length = corpus.length) (hk : corpus.length ≤ k) :
    ∃ hits, retrieve enc corpus meta query k = some hits ∧ hits.length = k :=
  retrieve_ok enc query k hne hlen

/-- Witness for C2 (amended): the one-chunk corpus with `top_k = 2`. -/
theorem C2_witness :
    ([[1]] : List (List ℚ)) ≠ [] ∧
      ∃ hits, retrieve encOne [[1]] [metaOne] [] 2 = some hits ∧ hits.length = 2 :=
  ⟨by decide, C2_retrieve_overlong_topk encOne [] 2 (by decide) (by decide) (by decide)⟩

theorem chat_of_smalltalk {cfg : ProviderCfg} {world : Collaborators} {query : Str}
    {r : ChatResponse} (h : handle_smalltalk query = some r) :
    chat cfg world query = Except.ok r := by
  unfold chat
  rw [h]

theorem chat_of_retrieval {cfg : ProviderCfg} {world : Collaborators} {query : Str}
    {hits : List Hit} (h1 : handle_smalltalk query = none)
    (h2 : retrieve world.enc world.corpus world.meta query cfg.top_k = some hits) :
    chat cfg world query =
      match call_llm cfg world (build_messages query (format_context hits)) with
      | Except.error e => Except.error e
      | Except.ok answer =>
        Except.ok
          { answer := if (check_red_flags query).1
              then (check_red_flags query).2 ++ codes "\n\n" ++ answer else answer
            citations := hits.map mkCitation } := by
  unfold chat
  rw [h1, h2]

theorem call_llm_no_provider {cfg : ProviderCfg} (world : Collaborators)
    (msgs : List Msg) (hko : pyTruthy cfg.openai_api_key = false)
    (hkm : pyTruthy cfg.ollama_model = false) :
    call_llm cfg world msgs = Except.ok NO_PROVIDER_MSG := by
  unfold call_llm
  rw [hko, hkm]
  simp

/-- C1: on an input that both contains a crisis phrase and matches a
smalltalk category — `"hi, my child had a seizure"` — the safety flag
is computed as flagged, yet `chat` returns the bare greeting canned
answer for every configuration and environment: the smalltalk
short-circuit returns before the crisis preface is prepended, so the
crisis-escalation message is silently dropped, contrary to the claim
that the two concerns compose. -/
theorem C1_smalltalk_bypasses_crisis_preface :
    check_red_flags (codes "hi, my child had a seizure") = (true, CRISIS_MSG) ∧
      handle_smalltalk (codes "hi, my child had a seizure") = some ⟨greetingAnswer, []⟩ ∧
      (∀ (cfg : ProviderCfg) (world : Collaborators),
        chat cfg world (codes "hi, my child had a seizure") =
          Except.ok ⟨greetingAnswer, []⟩) ∧
      greetingAnswer ≠ CRISIS_MSG ++ codes "\n\n" ++ greetingAnswer :=
  ⟨by decide, by decide, fun _ _ => chat_of_smalltalk (by decide), by decide⟩

/-- Witness for C1: the bypass at a concrete configuration and
environment. -/
theorem C1_witness :
    chat cfgNone worldOne (codes "hi, my child had a seizure") =
      Except.ok ⟨greetingAnswer, []⟩ :=
  C1_smalltalk_bypasses_crisis_preface.2.2.1 cfgNone worldOne

/-- C6: with no provider configured, `call_llm` returns the fixed
no-provider warning verbatim for every environment and message list —
so no network call can influence the result — and the chat response on
the retrieval path still carries the citations built from the
retrieval hits. -/
theorem C6_no_provider_soft_degradation (cfg : ProviderCfg)
    (hko : pyTruthy cfg.openai_api_key = false)
    (hkm : pyTruthy cfg.ollama_model = false) :
    (∀ (world : Collaborators) (msgs : List Msg),
        call_llm cfg world msgs = Except.ok NO_PROVIDER_MSG) ∧
      (∀ (world : Collaborators) (query : Str) (hits : List Hit),
        handle_smalltalk query = none →
        retrieve world.enc world.corpus world.meta query cfg.top_k = some hits →
        chat cfg world query = Except.ok
          { answer := if (check_red_flags query).1
              then (check_red_flags query).2 ++ codes "\n\n" ++ NO_PROVIDER_MSG
              else NO_PROVIDER_MSG
            citations := hits.map mkCitation }) := by
  refine ⟨fun world msgs => call_llm_no_provider world msgs hko hkm, ?_⟩
  intro world query hits h1 h2
  rw [chat_of_retrieval h1 h2, call_llm_no_provider _ _ hko hkm]

/-- Witness for C6: no providers configured, concrete environment. -/
theorem C6_witness :
    call_llm cfgNone worldOne [] = Except.ok NO_PROVIDER_MSG :=
  (C6_no_provider_soft_degradation cfgNone rfl rfl).1 worldOne []

/-- C7: `call_llm` selects by static configuration precedence — the
OpenAI branch whenever the key is truthy, otherwise the Ollama branch
whenever the model name is truthy — and an error raised by the
selected provider (e.g. a non-2xx status) propagates unchanged to the
caller of `chat`, with no retry and no fallback to the other
configured provider (the conclusion holds for every `ollama_model`). -/
theorem C7_provider_precedence_and_error_propagation (cfg : ProviderCfg)
    (world : Collaborators) :
    (∀ msgs, pyTruthy cfg.openai_api_key = true →
        call_llm cfg world msgs = (world.openaiChat msgs).map pyStrip) ∧
      (∀ msgs, pyTruthy cfg.openai_api_key = false →
        pyTruthy cfg.ollama_model = true →
        call_llm cfg world msgs = (world.ollamaChat msgs).map pyStrip) ∧
      (∀ (e : String) (query : Str), pyTruthy cfg.openai_api_key = true →
        (∀ msgs, world.openaiChat msgs = Except.error e) →
        handle_smalltalk query = none → world.corpus ≠ [] →
        world.meta.length = world.corpus.length →
        chat cfg world query = Except.error e) := by
  refine ⟨?_, ?_, ?_⟩
  · intro msgs hko
    unfold call_llm
    rw [hko]
    simp
  · intro msgs hko hkm
    unfold call_llm
    rw [hko, hkm]
    simp
  · intro e query hko herr h1 hne hlen
    obtain ⟨hits, hret, -⟩ := retrieve_ok world.enc query cfg.top_k hne hlen
    rw [chat_of_retrieval h1 hret]
    have hcall : call_llm cfg world (build_messages query (format_context hits)) =
        Except.error e := by
      unfold call_llm
      rw [hko, herr]
      simp [Except.map]
    rw [hcall]

/-- Witness for C7: both providers configured, OpenAI endpoint failing
with an HTTP status error — the error reaches the chat caller even
though Ollama is configured. -/
theorem C7_witness :
    chat cfgBoth worldHTTPError (codes "zzz") = Except.error "HTTPStatusError" :=
  (C7_provider_precedence_and_error_propagation cfgBoth worldHTTPError).2.2
    "HTTPStatusError" (codes "zzz") (by decide) (fun _ => rfl) (by decide)
    (by decide) (by decide)

/-- C9: the empty query is handled defensively: the Safety Filter
returns `(false, "")`, the Smalltalk Matcher returns the no-match
signal, and over any well-formed environment (non-empty corpus,
metadata in lockstep) whose generation step succeeds, `chat` falls
through to retrieval and returns a response instead of raising. -/
theorem C9_empty_query_defensive :
    check_red_flags (codes "") = (false, []) ∧
      handle_smalltalk (codes "") = none ∧
      ∀ (cfg : ProviderCfg) (world : Collaborators), world.corpus ≠ [] →
        world.meta.length = world.corpus.length →
        pyTruthy cfg.openai_api_key = false → pyTruthy cfg.ollama_model = false →
        ∃ r, chat cfg world (codes "") = Except.ok r := by
  refine ⟨by decide, by decide, ?_⟩
  intro cfg world hne hlen hko hkm
  obtain ⟨hits, hret, -⟩ := retrieve_ok world.enc (codes "") cfg.top_k hne hlen
  rw [chat_of_retrieval (by decide) hret, call_llm_no_provider _ _ hko hkm]
  exact ⟨_, rfl⟩

/-- Witness for C9: the empty query over the concrete environment. -/
theorem C9_witness : ∃ r, chat cfgNone worldOne (codes "") = Except.ok r :=
  C9_empty_query_defensive.2.2 cfgNone worldOne (by decide) (by decide) rfl rfl

/-- C3: the query-time embedder applies no normalization — for every
raw model and every text, `embed` returns the raw pooled output
unchanged, while the ingestion side divides by the norm
(`normalize_embeddings=True`). Instantiated at a raw output `[3, 4]`
(whose true norm is 5): the ingested vector has unit squared norm, the
query vector has squared norm 25 — the claimed invariant that query
vectors carry the same unit normalization as corpus vectors fails. -/
theorem C3_embed_skips_normalization :
    (∀ (raw : Str → List ℚ) (normOf : List ℚ → ℚ) (text : Str),
        embed raw normOf text = raw text) ∧
      normOfThreeFour (rawThreeFour []) * normOfThreeFour (rawThreeFour []) =
        sqNorm (rawThreeFour []) ∧
      sqNorm (embed rawThreeFour normOfThreeFour []) = 25 ∧
      sqNorm (ingestEmbed rawThreeFour normOfThreeFour []) = 1 ∧
      (25 : ℚ) ≠ 1 := by
  refine ⟨fun raw normOf text => rfl, ?_, ?_, ?_, by norm_num⟩
  · simp [normOfThreeFour, rawThreeFour, sqNorm]
    norm_num
  · simp [embed, stEncode, rawThreeFour, normOfThreeFour, sqNorm]
    norm_num
  · simp [ingestEmbed, stEncode, rawThreeFour, normOfThreeFour, sqNorm, vecScale]
    norm_num

/-- Witness for C3: the no-normalization identity at the concrete raw
model. -/
theorem C3_witness :
    embed rawThreeFour normOfThreeFour (codes "any query") =
      rawThreeFour (codes "any query") :=
  C3_embed_skips_normalization.1 rawThreeFour normOfThreeFour (codes "any query")

theorem startsWithL_self (p : Str) : startsWithL p p = true := by
  induction p with
  | nil => rfl
  | cons c cs ih => simp [startsWithL, ih]

/-- C8: for every query and context, `build_messages` is exactly one
system message carrying the system prompt, then the fixed `FEWSHOT`
sequence (a constant, hence unchanged across queries), then exactly
one final user message whose content contains the literal query, the
formatted context, and the fixed non-diagnostic reminder as
substrings; the whole sequence contains exactly one system-role
message. -/
theorem C8_build_messages_structure (query context : Str) :
    (∃ u : Str,
        build_messages query context =
          ⟨Role.system, SYSTEM_PROMPT⟩ :: (FEWSHOT ++ [⟨Role.user, u⟩]) ∧
        containsSub u query = true ∧
        containsSub u context = true ∧
        containsSub u NON_DIAGNOSTIC_PREFACE = true) ∧
      (build_messages query context).countP (fun m => m.role == Role.system) = 1 := by
  constructor
  · refine ⟨userTurn query context, rfl, ?_, ?_, ?_⟩
    · show containsSub (userTurn query context) query = true
      unfold userTurn
      simp only [List.append_assoc]
      exact containsSub_append_left _
        (containsSub_of_startsWithL (startsWithL_self_append query _))
    · show containsSub (userTurn query context) context = true
      unfold userTurn
      simp only [List.append_assoc]
      exact containsSub_append_left _ (containsSub_append_left _
        (containsSub_append_left _ (containsSub_append_left _
          (containsSub_of_startsWithL (startsWithL_self_append context _)))))
    · show containsSub (userTurn query context) NON_DIAGNOSTIC_PREFACE = true
      unfold userTurn
      simp only [List.append_assoc]
      exact containsSub_append_left _ (containsSub_append_left _
        (containsSub_append_left _ (containsSub_append_left _
          (containsSub_append_left _ (containsSub_append_left _
            (containsSub_append_left _
              (containsSub_of_startsWithL (startsWithL_self NON_DIAGNOSTIC_PREFACE))))))))
  · have hF : FEWSHOT.countP (fun m => m.role == Role.system) = 0 := by decide
    unfold build_messages
    simp [List.countP_cons, List.countP_append, hF]

/-- Witness for C8: the structure at a concrete query and context. -/
theorem C8_witness :
    (∃ u : Str,
        build_messages (codes "q") (codes "c") =
          ⟨Role.system, SYSTEM_PROMPT⟩ :: (FEWSHOT ++ [⟨Role.user, u⟩]) ∧
        containsSub u (codes "q") = true ∧
        containsSub u (codes "c") = true ∧
        containsSub u NON_DIAGNOSTIC_PREFACE = true) ∧
      (build_messages (codes "q") (codes "c")).countP
        (fun m => m.role == Role.system) = 1 :=
  C8_build_messages_structure (codes "q") (codes "c")

end IDDCareBot
